import Mathlib

/-!
Shallow embedding of the token-lifecycle code in `cmd/cmd.go` of the
micro repository: error formatting (`formatErr`, `upcaseInitial`), the
CLI auth flow (`setupAuthForCLI`), the service auth flow
(`setupAuthForService`) and the background refresh loop
(`refreshAuthToken`).

Modelling conventions:
  - In the error-formatting code, where the byte structure matters
    (`upcaseInitial` slices the string one byte past its start), Go strings
    are modelled as UTF-8 byte sequences (`GoStr`), with an explicit model
    of `utf8.DecodeRuneInString` and of Go's rune-to-string conversion.
    Elsewhere (token fields, ids, issuers) only emptiness and equality of
    strings are ever inspected, and Lean `String` is used directly.
  - `time.Time` values are modelled as `Int` Unix seconds; both Go
    comparisons in this file (`time.Now().Before(tok.Expiry.Add(-time.Minute))`
    and `tok.Expiry.Unix() > time.Now().Add(time.Minute).Unix()`) reduce to
    integer comparisons at second granularity.
  - The external collaborators (`auth.Token`, `auth.Generate`,
    `clitoken.Get`/`Save`, `util.GetEnv`, `namespace.Get`) are oracles: their
    responses are explicit parameters, and every request the code issues to
    the auth provider is recorded in an emitted `Call` list, in order.
  - Go's `(value, err)` returns from the provider are `Except AuthErr Token`;
    a `nil` `*auth.Token` pointer is only observable through the `Except`.
-/

deriving instance DecidableEq for Except

namespace MicroCmd

/-- A token as held by `auth.DefaultAuth.Options().Token`: access token,
optional (possibly empty) refresh token, and expiry in Unix seconds. -/
structure Token where
  accessToken : String
  refreshToken : String
  expiry : Int
deriving DecidableEq, Repr

/-- An account credential pair as returned by `auth.Generate`. -/
structure Account where
  id : String
  secret : String
deriving DecidableEq, Repr

/-- Errors returned by the auth provider client `auth.Token`:
`auth.ErrInvalidToken` (compared with `==` in the refresh loop) or any
other error value, carrying its message. -/
inductive AuthErr where
  | invalidToken : AuthErr
  | other : String → AuthErr
deriving DecidableEq, Repr

/-- One request issued to the auth provider client, with the options the
code passes: `auth.Token(auth.WithToken ..)` records the refresh token, the
`auth.WithTokenIssuer` option when present, and the `auth.WithExpiry`
window in seconds; `auth.Token(auth.WithCredentials ..)` records id, secret
and expiry window; `auth.Generate` records name, type and scopes. -/
inductive Call where
  | refreshExchange : String → Option String → Int → Call
  | credExchange : String → String → Int → Call
  | generateAccount : String → String → List String → Call
deriving DecidableEq, Repr

/-- In the error-formatting code a Go string is modelled as its UTF-8 byte
sequence (each entry a byte value below 256), because `upcaseInitial`
slices the string at a byte offset; `for i, v := range str` iterates runes
decoded from those bytes. -/
abbrev GoStr : Type := List Nat

/-- UTF-8 encoding of one rune, as Go's `string(r)` conversion and
`utf8.EncodeRune` produce it: surrogates and out-of-range values encode
the replacement character U+FFFD. -/
def utf8Encode (r : Nat) : List Nat :=
  let r := if (0xD800 ≤ r ∧ r ≤ 0xDFFF) ∨ 0x10FFFF < r then 0xFFFD else r
  if r < 0x80 then [r]
  else if r < 0x800 then [0xC0 + r / 0x40, 0x80 + r % 0x40]
  else if r < 0x10000 then
    [0xE0 + r / 0x1000, 0x80 + r / 0x40 % 0x40, 0x80 + r % 0x40]
  else
    [0xF0 + r / 0x40000, 0x80 + r / 0x1000 % 0x40, 0x80 + r / 0x40 % 0x40,
     0x80 + r % 0x40]

/-- The UTF-8 bytes of an ASCII-representable Lean string literal, used to
write concrete Go strings in the theorems below. -/
def strBytes (s : String) : GoStr :=
  s.data.flatMap fun c => utf8Encode c.toNat

/-- Decoding of the first rune of a UTF-8 byte sequence, as Go's
`utf8.DecodeRuneInString` (which drives `for i, v := range str`) performs
it: returns the rune and its byte width, `none` on the empty string, and
the replacement character U+FFFD with width 1 on every invalid, overlong,
surrogate or truncated encoding. -/
def utf8DecodeFirst (s : GoStr) : Option (Nat × Nat) :=
  match s with
  | [] => none
  | b0 :: rest =>
    if b0 < 0x80 then some (b0, 1)
    else if 0xC2 ≤ b0 ∧ b0 ≤ 0xDF then
      match rest with
      | b1 :: _ =>
        if 0x80 ≤ b1 ∧ b1 ≤ 0xBF then
          some ((b0 - 0xC0) * 0x40 + (b1 - 0x80), 2)
        else some (0xFFFD, 1)
      | [] => some (0xFFFD, 1)
    else if 0xE0 ≤ b0 ∧ b0 ≤ 0xEF then
      match rest with
      | b1 :: b2 :: _ =>
        if ((b0 = 0xE0 ∧ 0xA0 ≤ b1 ∧ b1 ≤ 0xBF) ∨
            (b0 = 0xED ∧ 0x80 ≤ b1 ∧ b1 ≤ 0x9F) ∨
            (b0 ≠ 0xE0 ∧ b0 ≠ 0xED ∧ 0x80 ≤ b1 ∧ b1 ≤ 0xBF)) ∧
           0x80 ≤ b2 ∧ b2 ≤ 0xBF then
          some ((b0 - 0xE0) * 0x1000 + (b1 - 0x80) * 0x40 + (b2 - 0x80), 3)
        else some (0xFFFD, 1)
      | _ => some (0xFFFD, 1)
    else if 0xF0 ≤ b0 ∧ b0 ≤ 0xF4 then
      match rest with
      | b1 :: b2 :: b3 :: _ =>
        if ((b0 = 0xF0 ∧ 0x90 ≤ b1 ∧ b1 ≤ 0xBF) ∨
            (b0 = 0xF4 ∧ 0x80 ≤ b1 ∧ b1 ≤ 0x8F) ∨
            (b0 ≠ 0xF0 ∧ b0 ≠ 0xF4 ∧ 0x80 ≤ b1 ∧ b1 ≤ 0xBF)) ∧
           0x80 ≤ b2 ∧ b2 ≤ 0xBF ∧ 0x80 ≤ b3 ∧ b3 ≤ 0xBF then
          some ((b0 - 0xF0) * 0x40000 + (b1 - 0x80) * 0x1000 +
                (b2 - 0x80) * 0x40 + (b3 - 0x80), 4)
        else some (0xFFFD, 1)
      | _ => some (0xFFFD, 1)
    else some (0xFFFD, 1)

/-- The Go standard-library `unicode.ToUpper`, modelled exactly on the
subdomain the theorems below evaluate it on: for ASCII runes Go
special-cases `r <= unicode.MaxASCII` and upper-cases only 'a'..'z'
(modelled exactly); outside ASCII this model is the identity, which agrees
with Go precisely on runes that have no simple uppercase mapping — such as
CJK ideographs (the counterexample below uses U+4E2D) and the replacement
character U+FFFD. Non-ASCII runes with a non-trivial uppercase mapping are
not evaluated by any theorem in this file. -/
def goToUpper (r : Nat) : Nat :=
  if r < 0x80 then
    if 0x61 ≤ r ∧ r ≤ 0x7A then r - 0x20 else r
  else r

/-- The structured error type `*errors.Error` from
`micro.dev/v4/service/errors`, with the fields the formatting code can see;
`formatErr` only reads `Detail`. -/
structure ErrorsError where
  id : GoStr
  code : Int
  detail : GoStr
  status : GoStr
deriving DecidableEq, Repr

/-- A Go `error` value as seen by `formatErr`: either the structured
`*errors.Error` or any other error, of which only the `Error()` message is
observable. -/
inductive GoErr where
  | structured : ErrorsError → GoErr
  | generic : GoStr → GoErr
deriving DecidableEq, Repr

/-- `upcaseInitial` (cmd.go:136-141): the `for i, v := range str` loop
returns on its first iteration, where `i = 0` and `v` is the first decoded
rune, with `string(unicode.ToUpper(v)) + str[i+1:]` — and `str[1:]` is a
byte slice, dropping exactly one byte however wide the first rune was; the
loop body is never reached for the empty string, so `""` is returned. -/
def upcaseInitial (str : GoStr) : GoStr :=
  match utf8DecodeFirst str with
  | none => []
  | some (v, _) => utf8Encode (goToUpper v) ++ str.drop 1

/-- `formatErr` (cmd.go:127-134): a type switch — `*errors.Error` is shown
via its `Detail` field, every other error via its `Error()` message, both
through `upcaseInitial`. -/
def formatErr (err : GoErr) : GoStr :=
  match err with
  | .structured v => upcaseInitial v.detail
  | .generic msg => upcaseInitial msg

/-- The string the spec's presentation rule chooses: the structured detail
when the error carries one, otherwise the generic message. -/
def chosenMessage : GoErr → GoStr
  | .structured v => v.detail
  | .generic msg => msg

/-- Modelled from the spec: upper-case exactly the first character and
pass every other character through unchanged — the remainder starts after
the full byte width of the first character, not one byte in. -/
def specUpcaseFirst (s : GoStr) : GoStr :=
  match utf8DecodeFirst s with
  | none => []
  | some (v, w) => utf8Encode (goToUpper v) ++ s.drop w

/-- Modelled from the spec: the presentation rule stated in the spec
(section 4.4) — choose the structured detail when the error carries one,
otherwise the generic message, then upper-case exactly the first character
and pass every other character through unchanged. Used to compare the
source `formatErr` against the spec's words. -/
def specPresentedMessage (err : GoErr) : GoStr :=
  specUpcaseFirst (chosenMessage err)

/-- Outcome of `setupAuthForCLI`: the returned error status, the token and
issuer installed into `auth.DefaultAuth` (via `auth.ClientToken` and
`auth.Issuer`) if any, the provider calls issued, and the token written
back through `clitoken.Save` if any. -/
structure CLIOutcome where
  ret : Except Unit Unit
  installed : Option (Token × String)
  calls : List Call
  saved : Option Token
deriving DecidableEq, Repr

/-- `setupAuthForCLI` (cmd.go:148-193), entered after the external lookups
succeeded: `ns` is the namespace from `namespace.Get(env.Name)`, `tok` the
token loaded by `clitoken.Get`, `now` the current Unix time.
`refreshResp` is the oracle response to the `auth.Token` refresh exchange
and `saveResp` the result of `clitoken.Save` (whose error the code returns
as its own result).
  - empty refresh token → return nil, nothing installed, no calls;
  - `time.Now().Before(tok.Expiry.Add(-time.Minute))` → install `tok`
    as-is with issuer `ns`, no calls;
  - otherwise one refresh exchange with issuer `ns` and a 24-hour
    (86400 s) window; on error return nil with nothing installed; on
    success install the new token and persist it via `clitoken.Save`. -/
def setupAuthForCLI (ns : String) (now : Int) (tok : Token)
    (refreshResp : Except AuthErr Token) (saveResp : Except Unit Unit) :
    CLIOutcome :=
  if tok.refreshToken.length = 0 then
    ⟨.ok (), none, [], none⟩
  else if now < tok.expiry - 60 then
    ⟨.ok (), some (tok, ns), [], none⟩
  else
    let rcall := Call.refreshExchange tok.refreshToken (some ns) 86400
    match refreshResp with
    | .error _ => ⟨.ok (), none, [rcall], none⟩
    | .ok t => ⟨saveResp, some (t, ns), [rcall], some t⟩

/-- Outcome of `setupAuthForService`: the returned error status (a
non-nil return is treated as fatal by the caller, cmd.go:447-449
`logger.Fatalf`), the provider calls issued, and what was installed into
`auth.DefaultAuth` via `auth.ClientToken` and `auth.Credentials`. -/
structure ServiceOutcome where
  ret : Except Unit Unit
  calls : List Call
  installedToken : Option Token
  installedCreds : Option (String × String)
deriving DecidableEq, Repr

/-- The tail of `setupAuthForService` (cmd.go:222-236) once `accID` and
`accSecret` are resolved: one credential exchange with a 1-hour (3600 s)
window; on error return it (fatal); on success install the token and the
credentials. `pre` carries the calls already issued. -/
def serviceTokenStep (pre : List Call) (accID accSecret : String)
    (tokResp : Except AuthErr Token) : ServiceOutcome :=
  let c := Call.credExchange accID accSecret 3600
  match tokResp with
  | .error _ => ⟨.error (), pre ++ [c], none, none⟩
  | .ok t => ⟨.ok (), pre ++ [c], some t, some (accID, accSecret)⟩

/-- `setupAuthForService` (cmd.go:196-237): `optsID`/`optsSecret` come from
`auth.DefaultAuth.Options()`; if either is empty, one
`auth.Generate(uuid.New().String(), WithType "service", WithScopes "service")`
call is made (`uuidName` is the freshly generated identifier, `genResp` the
oracle response; an error return is fatal), and the generated account's id
and secret replace the empty credentials before the token exchange. -/
def setupAuthForService (optsID optsSecret : String) (uuidName : String)
    (genResp : Except Unit Account) (tokResp : Except AuthErr Token) :
    ServiceOutcome :=
  if optsID.length = 0 ∨ optsSecret.length = 0 then
    let gcall := Call.generateAccount uuidName "service" ["service"]
    match genResp with
    | .error _ => ⟨.error (), [gcall], none, none⟩
    | .ok acc => serviceTokenStep [gcall] acc.id acc.secret tokResp
  else
    serviceTokenStep [] optsID optsSecret tokResp

/-- The oracle inputs consumed by one tick of the refresh loop: the current
Unix time when the tick fires, and the provider responses to the refresh
exchange and (if reached) the credential-based regeneration exchange. -/
structure TickInput where
  now : Int
  refreshResp : Except AuthErr Token
  credResp : Except AuthErr Token
deriving DecidableEq, Repr

/-- Result of one tick of the refresh loop: `next tok` means the tick
completed and `tok` is the token installed in `auth.DefaultAuth` afterwards
(unchanged on an idle tick or a logged transient error, replaced after a
successful exchange); `crash` means the tick dereferenced the nil token
returned by a failed regeneration (`tok.Expiry.Format` at cmd.go:279) and
the goroutine panics, killing the process. -/
inductive TickResult where
  | next : Token → TickResult
  | crash : TickResult
deriving DecidableEq, Repr

/-- One `<-t.C` iteration of `refreshAuthToken` (cmd.go:251-281), with
`tok` the token read from `auth.DefaultAuth.Options().Token` and `accID`,
`accSecret` the values of `auth.DefaultAuth.Options().ID`/`.Secret`:
  - `tok.Expiry.Unix() > time.Now().Add(time.Minute).Unix()` → `continue`,
    no calls;
  - otherwise one refresh exchange (`auth.WithToken tok.RefreshToken`, no
    issuer option, 10-minute = 600 s window);
      - on success install the new token;
      - on `auth.ErrInvalidToken` one credential exchange
        (`auth.WithCredentials accID accSecret`, 600 s window); on its
        success install the new token; on its failure the code leaves `err`
        unchecked and evaluates `tok.Expiry.Format` on the nil `tok` —
        modelled as `crash`;
      - on any other error log and `continue` with the old token. -/
def refreshTick (accID accSecret : String) (tok : Token) (inp : TickInput) :
    TickResult × List Call :=
  if tok.expiry > inp.now + 60 then
    (.next tok, [])
  else
    let rcall := Call.refreshExchange tok.refreshToken none 600
    match inp.refreshResp with
    | .ok t => (.next t, [rcall])
    | .error .invalidToken =>
      let ccall := Call.credExchange accID accSecret 600
      match inp.credResp with
      | .ok t => (.next t, [rcall, ccall])
      | .error _ => (.crash, [rcall, ccall])
    | .error (.other _) => (.next tok, [rcall])

/-- The ticker loop body of `refreshAuthToken`, iterated over a finite
prefix of tick inputs: threads the installed token through successive
ticks, accumulates the provider calls in order, and stops early if a tick
crashes. Returns the calls issued, the token installed after the last
completed tick, and whether the process crashed. -/
def runTicks (accID accSecret : String) (tok : Token)
    (inputs : List TickInput) : List Call × Token × Bool :=
  match inputs with
  | [] => ([], tok, false)
  | inp :: rest =>
    match refreshTick accID accSecret tok inp with
    | (.next t, cs) =>
      let r := runTicks accID accSecret t rest
      (cs ++ r.1, r.2.1, r.2.2)
    | (.crash, cs) => (cs, tok, true)

/-- The process-wide auth state read by `refreshAuthToken` at entry:
`auth.DefaultAuth.Options()` with its `ID`, `Secret` and `Token` fields. -/
structure AuthState where
  id : String
  secret : String
  token : Option Token
deriving DecidableEq, Repr

/-- `refreshAuthToken` (cmd.go:240-283) run against a finite prefix of tick
inputs: if `Options().Token == nil` the function returns before creating
the ticker (no tick is processed, no call is issued); otherwise it runs the
ticker loop. Returns the provider calls issued, the installed token after
the processed ticks (`none` only when the loop never started), and whether
the process crashed. -/
def refreshAuthToken (st : AuthState) (inputs : List TickInput) :
    List Call × Option Token × Bool :=
  match st.token with
  | none => ([], none, false)
  | some tok =>
    let r := runTicks st.id st.secret tok inputs
    (r.1, some r.2.1, r.2.2)

/-- Idle ticks issue no provider call and leave the token unchanged:
`runTicks` over any input list all of whose ticks satisfy
`expiry > now + 1 minute` is a no-op. -/
theorem runTicks_idle (accID accSecret : String) (tok : Token)
    (inputs : List TickInput) (h : ∀ i ∈ inputs, tok.expiry > i.now + 60) :
    runTicks accID accSecret tok inputs = ([], tok, false) := by
  induction inputs with
  | nil => rfl
  | cons i rest ih =>
    have hi : tok.expiry > i.now + 60 := h i (by simp)
    have hrest : ∀ j ∈ rest, tok.expiry > j.now + 60 :=
      fun j hj => h j (by simp [hj])
    simp [runTicks, refreshTick, hi, ih hrest]

/-- C2 counterexample: for a structured error whose detail starts with the
multi-byte character U+4E2D (bytes E4 B8 AD, a CJK ideograph with no
uppercase mapping, so `unicode.ToUpper` leaves it unchanged) followed by
"ab", the code re-emits the first rune but then appends the byte slice
`str[1:]`, so the two continuation bytes B8 AD of the original first
character appear again before "ab" — the presented message is not the
chosen string with only its first character upper-cased, refuting the
claim's universal equality. -/
theorem formatErr_multibyte_first_char_corrupts :
    formatErr (.structured ⟨[], 400, [0xE4, 0xB8, 0xAD, 0x61, 0x62], []⟩) =
      [0xE4, 0xB8, 0xAD, 0xB8, 0xAD, 0x61, 0x62] ∧
    specPresentedMessage
        (.structured ⟨[], 400, [0xE4, 0xB8, 0xAD, 0x61, 0x62], []⟩) =
      [0xE4, 0xB8, 0xAD, 0x61, 0x62] := by decide

/-- C2 (amended): for every error value whose chosen message is empty or
begins with a single-byte (ASCII) character, the presented message is the
structured detail when the error carries a structured detail field (the
`*errors.Error` branch of the type switch) and otherwise the generic
message, with exactly the first character upper-cased and every other
character passed through unchanged; detail "account not found" presents
as "Account not found", and a detail-less error with message "io timeout"
presents as "Io timeout". -/
theorem formatErr_presents_detail_or_message :
    (∀ err : GoErr, (chosenMessage err).headD 0 < 0x80 →
      formatErr err = specPresentedMessage err) ∧
    formatErr (.structured ⟨strBytes "id1", 404,
        strBytes "account not found", strBytes "NotFound"⟩) =
      strBytes "Account not found" ∧
    formatErr (.generic (strBytes "io timeout")) = strBytes "Io timeout" := by
  have key : ∀ s : GoStr, s.headD 0 < 0x80 →
      upcaseInitial s = specUpcaseFirst s := by
    intro s hs
    cases s with
    | nil => rfl
    | cons b rest =>
      have hb : b < 0x80 := hs
      simp only [upcaseInitial, specUpcaseFirst, utf8DecodeFirst, if_pos hb]
  refine ⟨fun err h => ?_, by decide, by decide⟩
  cases err with
  | structured v => exact key v.detail h
  | generic m => exact key m h

/-- C2 witness: the amended claim applied to the detail-less error with
message "io timeout", whose first byte is ASCII. -/
theorem formatErr_presents_detail_or_message_witness :
    (chosenMessage (.generic (strBytes "io timeout"))).headD 0 < 0x80 ∧
    formatErr (.generic (strBytes "io timeout")) =
      specPresentedMessage (.generic (strBytes "io timeout")) :=
  ⟨by decide,
    formatErr_presents_detail_or_message.1 (.generic (strBytes "io timeout"))
      (by decide)⟩

/-- C4 counterexample: a persisted token with `expiry = 1000`, `now = 0`
satisfies `now < expiry - 1 minute`, yet because its refresh token is empty
the CLI flow returns at the early `len(tok.RefreshToken) == 0` guard and
installs nothing, refuting the claim that every such token is installed. -/
theorem setupAuthForCLI_far_expiry_empty_refresh_not_installed :
    (0 : Int) < 1000 - 60 ∧
    (setupAuthForCLI "ns" 0 ⟨"a", "", 1000⟩ (.ok ⟨"b", "r2", 5000⟩)
        (.ok ())).installed = none := by decide

/-- C4 (amended): for every persisted token with a non-empty refresh token
whose expiry satisfies `now < expiry - 1 minute`, the CLI flow installs
that token as-is with the environment's issuer, makes no provider call,
writes nothing to the credential store and returns success. -/
theorem setupAuthForCLI_valid_token_installed
    (ns : String) (now : Int) (tok : Token)
    (refreshResp : Except AuthErr Token) (saveResp : Except Unit Unit)
    (hrt : tok.refreshToken.length ≠ 0) (hexp : now < tok.expiry - 60) :
    setupAuthForCLI ns now tok refreshResp saveResp =
      ⟨.ok (), some (tok, ns), [], none⟩ := by
  unfold setupAuthForCLI
  rw [if_neg hrt, if_pos hexp]

/-- C4 witness: concrete instantiation of the amended claim at
`now = 100`, `expiry = 5000`, refresh token "r1". -/
theorem setupAuthForCLI_valid_token_installed_witness :
    ("r1" : String).length ≠ 0 ∧ (100 : Int) < 5000 - 60 ∧
    setupAuthForCLI "ns" 100 ⟨"a", "r1", 5000⟩ (.ok ⟨"b", "r2", 9000⟩)
        (.ok ()) =
      ⟨.ok (), some (⟨"a", "r1", 5000⟩, "ns"), [], none⟩ :=
  ⟨by decide, by decide,
    setupAuthForCLI_valid_token_installed "ns" 100 ⟨"a", "r1", 5000⟩
      (.ok ⟨"b", "r2", 9000⟩) (.ok ()) (by decide) (by decide)⟩

/-- C5 counterexample: a persisted token that is already expired
(`expiry = 0`, `now = 0`, so `expiry ≤ now + 1 minute`) but has an empty
refresh token produces zero provider calls, refuting the claim that every
near-or-past-expiry token triggers exactly one refresh exchange. -/
theorem setupAuthForCLI_expired_empty_refresh_no_exchange :
    ¬ ((0 : Int) < 0 - 60) ∧
    (setupAuthForCLI "ns" 0 ⟨"a", "", 0⟩ (.ok ⟨"b", "r2", 5000⟩)
        (.ok ())).calls = [] := by decide

/-- C5 (amended): for every persisted token with a non-empty refresh token
whose expiry is within one minute of now or already past, the CLI flow
performs exactly one refresh exchange, with the stored refresh token, the
environment's issuer and a 24-hour (86400 s) window; when the exchange
succeeds, the resulting token is installed and written back to the
credential store. -/
theorem setupAuthForCLI_near_expiry_single_refresh
    (ns : String) (now : Int) (tok : Token)
    (refreshResp : Except AuthErr Token) (saveResp : Except Unit Unit)
    (hrt : tok.refreshToken.length ≠ 0) (hexp : ¬ now < tok.expiry - 60) :
    (setupAuthForCLI ns now tok refreshResp saveResp).calls =
      [Call.refreshExchange tok.refreshToken (some ns) 86400] ∧
    ∀ t : Token, refreshResp = .ok t →
      (setupAuthForCLI ns now tok refreshResp saveResp).installed =
          some (t, ns) ∧
        (setupAuthForCLI ns now tok refreshResp saveResp).saved = some t := by
  unfold setupAuthForCLI
  rw [if_neg hrt, if_neg hexp]
  cases refreshResp with
  | error e => exact ⟨rfl, fun t ht => by cases ht⟩
  | ok t0 =>
    refine ⟨rfl, fun t ht => ?_⟩
    cases ht
    exact ⟨rfl, rfl⟩

/-- C5 witness: concrete instantiation of the amended claim for a token
expired 10 seconds ago with refresh token "r1" in environment issuer
"dev-issuer", with a successful exchange response. -/
theorem setupAuthForCLI_near_expiry_single_refresh_witness :
    ("r1" : String).length ≠ 0 ∧ ¬ ((100 : Int) < 90 - 60) ∧
    (setupAuthForCLI "dev-issuer" 100 ⟨"a", "r1", 90⟩
        (.ok ⟨"b", "r2", 5000⟩) (.ok ())).calls =
      [Call.refreshExchange "r1" (some "dev-issuer") 86400] :=
  ⟨by decide, by decide,
    (setupAuthForCLI_near_expiry_single_refresh "dev-issuer" 100
      ⟨"a", "r1", 90⟩ (.ok ⟨"b", "r2", 5000⟩) (.ok ()) (by decide)
      (by decide)).1⟩

/-- C9: when the CLI flow's refresh exchange fails, the flow still returns
success, installs nothing into process-wide auth state and writes nothing
to the credential store (it only issued the one failed exchange). -/
theorem setupAuthForCLI_refresh_failure_graceful
    (ns : String) (now : Int) (tok : Token) (e : AuthErr)
    (saveResp : Except Unit Unit)
    (hrt : tok.refreshToken.length ≠ 0) (hexp : ¬ now < tok.expiry - 60) :
    setupAuthForCLI ns now tok (.error e) saveResp =
      ⟨.ok (), none,
        [Call.refreshExchange tok.refreshToken (some ns) 86400], none⟩ := by
  unfold setupAuthForCLI
  rw [if_neg hrt, if_neg hexp]

/-- C9 witness: concrete instantiation with an expired token and a failing
provider. -/
theorem setupAuthForCLI_refresh_failure_graceful_witness :
    ("r1" : String).length ≠ 0 ∧ ¬ ((100 : Int) < 90 - 60) ∧
    setupAuthForCLI "ns" 100 ⟨"a", "r1", 90⟩
        (.error (.other "provider down")) (.ok ()) =
      ⟨.ok (), none, [Call.refreshExchange "r1" (some "ns") 86400], none⟩ :=
  ⟨by decide, by decide,
    setupAuthForCLI_refresh_failure_graceful "ns" 100 ⟨"a", "r1", 90⟩
      (.other "provider down") (.ok ()) (by decide) (by decide)⟩

/-- C10: for every persisted token whose refresh token is empty, the CLI
flow returns success with nothing installed, no provider call and no
credential-store write, whatever `now`, the expiry and the oracle
responses are — in particular even when `now < expiry - 1 minute`. -/
theorem setupAuthForCLI_empty_refreshToken_noop
    (ns : String) (now : Int) (tok : Token)
    (refreshResp : Except AuthErr Token) (saveResp : Except Unit Unit)
    (hrt : tok.refreshToken.length = 0) :
    setupAuthForCLI ns now tok refreshResp saveResp =
      ⟨.ok (), none, [], none⟩ := by
  unfold setupAuthForCLI
  rw [if_pos hrt]

/-- C10 witness: concrete instantiation with an empty refresh token and an
expiry far (more than one minute) in the future. -/
theorem setupAuthForCLI_empty_refreshToken_noop_witness :
    ("" : String).length = 0 ∧ (0 : Int) < 1000 - 60 ∧
    setupAuthForCLI "ns" 0 ⟨"a", "", 1000⟩ (.ok ⟨"b", "r2", 5000⟩)
        (.ok ()) =
      ⟨.ok (), none, [], none⟩ :=
  ⟨by decide, by decide,
    setupAuthForCLI_empty_refreshToken_noop "ns" 0 ⟨"a", "", 1000⟩
      (.ok ⟨"b", "r2", 5000⟩) (.ok ()) (by decide)⟩

/-- C6: given no account credentials, the service flow makes exactly one
`auth.Generate` call named by the freshly generated identifier with type
"service" and scope "service"; a generation failure is returned (fatal to
startup) with no further call; on generation success exactly one credential
exchange with the generated id and secret and a 1-hour (3600 s) window
follows, and on its success both the credentials and the resulting token
are installed. -/
theorem setupAuthForService_self_generates (optsID optsSecret : String)
    (uuidName : String)
    (hid : optsID.length = 0) (_hsec : optsSecret.length = 0) :
    (∀ tokResp : Except AuthErr Token,
      setupAuthForService optsID optsSecret uuidName (.error ()) tokResp =
        ⟨.error (), [Call.generateAccount uuidName "service" ["service"]],
          none, none⟩) ∧
    (∀ (acc : Account) (tokResp : Except AuthErr Token),
      (setupAuthForService optsID optsSecret uuidName (.ok acc)
          tokResp).calls =
        [Call.generateAccount uuidName "service" ["service"],
         Call.credExchange acc.id acc.secret 3600]) ∧
    (∀ (acc : Account) (t : Token),
      setupAuthForService optsID optsSecret uuidName (.ok acc) (.ok t) =
        ⟨.ok (), [Call.generateAccount uuidName "service" ["service"],
                  Call.credExchange acc.id acc.secret 3600],
          some t, some (acc.id, acc.secret)⟩) := by
  have hcond : optsID.length = 0 ∨ optsSecret.length = 0 := Or.inl hid
  refine ⟨fun tokResp => ?_, fun acc tokResp => ?_, fun acc t => ?_⟩ <;>
    simp only [setupAuthForService, if_pos hcond]
  · cases tokResp <;> rfl
  · rfl

/-- C6 witness: concrete instantiation with empty credentials, a generated
account ("gid", "gsec") and a successful 1-hour token exchange. -/
theorem setupAuthForService_self_generates_witness :
    ("" : String).length = 0 ∧
    setupAuthForService "" "" "uuid-1" (.ok ⟨"gid", "gsec"⟩)
        (.ok ⟨"t", "rt", 3600⟩) =
      ⟨.ok (), [Call.generateAccount "uuid-1" "service" ["service"],
                Call.credExchange "gid" "gsec" 3600],
        some ⟨"t", "rt", 3600⟩, some ("gid", "gsec")⟩ :=
  ⟨by decide,
    (setupAuthForService_self_generates "" "" "uuid-1" (by decide)
      (by decide)).2.2 ⟨"gid", "gsec"⟩ ⟨"t", "rt", 3600⟩⟩

/-- C1: at a tick where the refresh exchange reports the invalid-token
error and the credential-based regeneration also fails, the code leaves the
regeneration's error unchecked and dereferences the nil token it returned
(`tok.Expiry.Format` at cmd.go:279), so the goroutine panics and the
process dies instead of logging and retrying on the next tick — the claim
describes the intended behaviour, which the code does not implement. -/
theorem refreshTick_regen_failure_crashes :
    refreshTick "acc-id" "acc-secret" ⟨"a", "r", 1000⟩
        ⟨1000, .error .invalidToken, .error (.other "provider down")⟩ =
      (.crash, [Call.refreshExchange "r" none 600,
                Call.credExchange "acc-id" "acc-secret" 600]) := by decide

/-- C3 counterexample: the loop's guard checks only `Token == nil`, not the
refresh token, so with an installed token whose refresh token is empty the
loop still performs refresh work — here one (empty-string) refresh
exchange — refuting "only if a Token with a non-empty refreshToken was
installed". -/
theorem refreshAuthToken_ticks_with_empty_refreshToken :
    (⟨"a", "", 0⟩ : Token).refreshToken.length = 0 ∧
    (refreshAuthToken ⟨"i", "s", some ⟨"a", "", 0⟩⟩
        [⟨0, .ok ⟨"b", "r2", 5000⟩, .ok ⟨"c", "r3", 5000⟩⟩]).1 =
      [Call.refreshExchange "" none 600] := by decide

/-- C3 (amended): the refresh loop performs refresh work only if a token
is installed when it starts: with no installed token it returns before
creating the ticker, processing no tick and issuing no provider call, for
every sequence of tick inputs. -/
theorem refreshAuthToken_no_token_exits (st : AuthState)
    (inputs : List TickInput) (h : st.token = none) :
    refreshAuthToken st inputs = ([], none, false) := by
  unfold refreshAuthToken
  rw [h]

/-- C3 witness: concrete instantiation with no installed token and a
non-empty tick input list. -/
theorem refreshAuthToken_no_token_exits_witness :
    (⟨"i", "s", none⟩ : AuthState).token = none ∧
    refreshAuthToken ⟨"i", "s", none⟩
        [⟨0, .ok ⟨"b", "r2", 5000⟩, .ok ⟨"c", "r3", 5000⟩⟩] =
      ([], none, false) :=
  ⟨rfl,
    refreshAuthToken_no_token_exits ⟨"i", "s", none⟩
      [⟨0, .ok ⟨"b", "r2", 5000⟩, .ok ⟨"c", "r3", 5000⟩⟩] rfl⟩

/-- C7: at a tick with `expiry ≤ now + 1 minute` whose refresh exchange
reports the invalid-token error and whose credential exchange succeeds,
the tick issues exactly one credential exchange, with the stored account id
and secret and a 10-minute (600 s) window, installs the new token, and the
loop is back to idle: any later tick while the new token's expiry is more
than a minute away does nothing. -/
theorem refreshTick_invalid_token_regenerates (accID accSecret : String)
    (tok : Token) (now : Int) (t : Token) (hexp : tok.expiry ≤ now + 60) :
    refreshTick accID accSecret tok ⟨now, .error .invalidToken, .ok t⟩ =
      (.next t, [Call.refreshExchange tok.refreshToken none 600,
                 Call.credExchange accID accSecret 600]) ∧
    ∀ inp2 : TickInput, t.expiry > inp2.now + 60 →
      refreshTick accID accSecret t inp2 = (.next t, []) := by
  have h : ¬ tok.expiry > now + 60 := by omega
  refine ⟨by simp [refreshTick, h], fun inp2 h2 => by simp [refreshTick, h2]⟩

/-- C7 witness: concrete instantiation at `now = 1000` with an expired
token, an invalid-token response, a successful regeneration, and an idle
follow-up tick. -/
theorem refreshTick_invalid_token_regenerates_witness :
    (⟨"a", "r", 1000⟩ : Token).expiry ≤ 1000 + 60 ∧
    refreshTick "i" "s" ⟨"a", "r", 1000⟩
        ⟨1000, .error .invalidToken, .ok ⟨"b", "r2", 5000⟩⟩ =
      (.next ⟨"b", "r2", 5000⟩,
       [Call.refreshExchange "r" none 600, Call.credExchange "i" "s" 600]) ∧
    refreshTick "i" "s" ⟨"b", "r2", 5000⟩
        ⟨1015, .ok ⟨"c", "r3", 9000⟩, .ok ⟨"c", "r3", 9000⟩⟩ =
      (.next ⟨"b", "r2", 5000⟩, []) :=
  have h := refreshTick_invalid_token_regenerates "i" "s" ⟨"a", "r", 1000⟩
    1000 ⟨"b", "r2", 5000⟩ (by decide)
  ⟨by decide, h.1, h.2 ⟨1015, .ok ⟨"c", "r3", 9000⟩, .ok ⟨"c", "r3", 9000⟩⟩
    (by decide)⟩

/-- C8: a tick issues a provider call if and only if the installed token's
expiry satisfies `expiry ≤ now + 1 minute`; when it does, the first call is
the refresh exchange with the token's refresh token and a 10-minute
(600 s) window; and any run of consecutive ticks all satisfying
`expiry > now + 1 minute` issues zero calls and leaves the token
unchanged. -/
theorem refreshTick_exchange_iff_near_expiry (accID accSecret : String)
    (tok : Token) (inp : TickInput) :
    ((refreshTick accID accSecret tok inp).2 ≠ [] ↔
      tok.expiry ≤ inp.now + 60) ∧
    (tok.expiry ≤ inp.now + 60 →
      (refreshTick accID accSecret tok inp).2.head? =
        some (Call.refreshExchange tok.refreshToken none 600)) ∧
    ∀ inputs : List TickInput, (∀ i ∈ inputs, tok.expiry > i.now + 60) →
      runTicks accID accSecret tok inputs = ([], tok, false) := by
  refine ⟨?_, ?_, runTicks_idle accID accSecret tok⟩
  · by_cases h : tok.expiry > inp.now + 60
    · simp only [refreshTick, if_pos h]
      constructor
      · intro hne; exact absurd rfl hne
      · omega
    · have hle : tok.expiry ≤ inp.now + 60 := by omega
      rcases inp with ⟨now, rResp, cResp⟩
      cases rResp with
      | ok t => simp [refreshTick, h, hle]
      | error e => cases e <;> cases cResp <;> simp [refreshTick, h, hle]
  · intro hle
    have h : ¬ tok.expiry > inp.now + 60 := by omega
    rcases inp with ⟨now, rResp, cResp⟩
    cases rResp with
    | ok t => simp [refreshTick, h]
    | error e => cases e <;> cases cResp <;> simp [refreshTick, h]

/-- C8 witness: at a concrete near-expiry tick the call list is non-empty
and starts with the 10-minute refresh exchange; a concrete idle run of two
ticks issues zero calls. -/
theorem refreshTick_exchange_iff_near_expiry_witness :
    (refreshTick "i" "s" ⟨"a", "r", 50⟩
        ⟨0, .ok ⟨"b", "r2", 650⟩, .ok ⟨"c", "r3", 650⟩⟩).2 ≠ [] ∧
    (refreshTick "i" "s" ⟨"a", "r", 50⟩
        ⟨0, .ok ⟨"b", "r2", 650⟩, .ok ⟨"c", "r3", 650⟩⟩).2.head? =
      some (Call.refreshExchange "r" none 600) ∧
    runTicks "i" "s" ⟨"a", "r", 5000⟩
        [⟨0, .ok ⟨"b", "r2", 650⟩, .ok ⟨"c", "r3", 650⟩⟩,
         ⟨15, .ok ⟨"b", "r2", 650⟩, .ok ⟨"c", "r3", 650⟩⟩] =
      ([], ⟨"a", "r", 5000⟩, false) :=
  have h := refreshTick_exchange_iff_near_expiry "i" "s" ⟨"a", "r", 50⟩
    ⟨0, .ok ⟨"b", "r2", 650⟩, .ok ⟨"c", "r3", 650⟩⟩
  ⟨h.1.mpr (by decide), h.2.1 (by decide),
    (refreshTick_exchange_iff_near_expiry "i" "s" ⟨"a", "r", 5000⟩
        ⟨0, .ok ⟨"b", "r2", 650⟩, .ok ⟨"c", "r3", 650⟩⟩).2.2
      [⟨0, .ok ⟨"b", "r2", 650⟩, .ok ⟨"c", "r3", 650⟩⟩,
       ⟨15, .ok ⟨"b", "r2", 650⟩, .ok ⟨"c", "r3", 650⟩⟩] (by decide)⟩

end MicroCmd
